import Mathlib

set_option maxRecDepth 10000

/- Shallow embedding of the DeepShield backend (src/backend/main.py).

   Conventions:
   - Python strings are modelled as `List Char`; `str.lower` is ASCII
     lowercasing (all inputs of interest are ASCII).
   - Python float arithmetic is modelled exactly by `ℚ`; the values the
     claims compare are far from any binary-rounding boundary.
   - Python `int(x)` truncates toward zero; every truncated value here is
     nonnegative, so it is modelled by `Int.floor`.
   - `str.count` counts non-overlapping occurrences, scanning left to
     right; `pyCount` below reproduces that.
   - Exceptions are modelled with `Except`. -/

/-- ASCII lowercasing, as `str.lower` acts on ASCII text. -/
def pyLower (c : Char) : Char :=
  if 'A' ≤ c ∧ c ≤ 'Z' then Char.ofNat (c.toNat + 32) else c

/-- Python whitespace (`str.strip` / `str.split` with no argument), ASCII part. -/
def is_space (c : Char) : Bool :=
  c = ' ' || c = '\t' || c = '\n' || c = '\r' || c = '\x0b' || c = '\x0c'

/-- A regex `\w` word character (ASCII part). -/
def is_word_char (c : Char) : Bool :=
  ('a' ≤ c && c ≤ 'z') || ('A' ≤ c && c ≤ 'Z') || ('0' ≤ c && c ≤ '9') || c = '_'

/-- The sentence separators of `re.split(r'[.!?]+', text)`. -/
def is_sentence_sep (c : Char) : Bool :=
  c = '.' || c = '!' || c = '?'

/-- Split a list at every character satisfying `p`, keeping empty pieces
    (single-character split; callers filter empty pieces, which makes this
    agree with splitting on `[.!?]+` runs / maximal-run tokenisation). -/
def splitOnPred (p : Char → Bool) : List Char → List (List Char)
  | [] => [[]]
  | c :: cs =>
    if p c then [] :: splitOnPred p cs
    else
      match splitOnPred p cs with
      | [] => [[c]]
      | r :: rs => (c :: r) :: rs

/-- `str.strip()`. -/
def pyStrip (l : List Char) : List Char :=
  ((l.dropWhile is_space).reverse.dropWhile is_space).reverse

/-- `str.split()` with no argument: split on whitespace runs, no empties. -/
def pySplitWs (l : List Char) : List (List Char) :=
  (splitOnPred is_space l).filter (fun s => !s.isEmpty)

/-- `[s.strip() for s in re.split(r'[.!?]+', text) if s.strip()]`. -/
def sentences (t : List Char) : List (List Char) :=
  ((splitOnPred is_sentence_sep t).map pyStrip).filter (fun s => !s.isEmpty)

/-- `re.findall(r'\b\w+\b', l)`: the maximal runs of word characters. -/
def word_tokens (l : List Char) : List (List Char) :=
  (splitOnPred (fun c => !is_word_char c) l).filter (fun s => !s.isEmpty)

/-- Helper for `pyCount`: scan the text; a positive skip counter jumps over
    the tail of a match already counted (non-overlapping semantics). -/
def pyCountAux (pat : List Char) : List Char → Nat → Nat
  | [], _ => 0
  | _ :: cs, Nat.succ k => pyCountAux pat cs k
  | c :: cs, 0 =>
    if pat.isPrefixOf (c :: cs) then 1 + pyCountAux pat cs (pat.length - 1)
    else pyCountAux pat cs 0

/-- `text.count(pat)` for a non-empty pattern: non-overlapping occurrences. -/
def pyCount (pat l : List Char) : Nat :=
  pyCountAux pat l 0

/-- `pat in text` (substring containment). -/
def isSubstr (pat : List Char) : List Char → Bool
  | [] => pat.isEmpty
  | c :: cs => pat.isPrefixOf (c :: cs) || isSubstr pat cs

/-- `len(set(ws))`, accumulating the words already seen. -/
def distinct_count : List (List Char) → List (List Char) → Nat
  | [], _ => 0
  | w :: ws, seen =>
    if seen.contains w then distinct_count ws seen
    else 1 + distinct_count ws (w :: seen)

/-- The apostrophe character. -/
def apos : Char := Char.ofNat 39

/-- `text.lower()`. -/
def text_lower (t : List Char) : List Char := t.map pyLower

/-- The 11 formal transition phrases of signal 2 (main.py lines 80-84). -/
def formal_transitions : List (List Char) :=
  ["furthermore".data, "moreover".data, "in addition".data, "consequently".data,
   "therefore".data, "subsequently".data, "nevertheless".data, "additionally".data,
   "in conclusion".data, "it is important to note".data, "it should be noted".data]

/-- The hedging words of signal 4 (main.py line 101). -/
def hedging_words : List (List Char) :=
  ["may".data, "might".data, "could".data, "possibly".data, "perhaps".data,
   "generally".data]

/-- The contraction markers of signal 6 (main.py line 114). -/
def contractions : List (List Char) :=
  [['n', apos, 't'], [apos, 'l', 'l'], [apos, 'r', 'e'], [apos, 'v', 'e'],
   [apos, 'd'], [apos, 'm'], [apos, 's']]

/-- Signal 1 (lines 67-77): sentence length variance.
    Returns the `(ai, human)` increments of the block. -/
def sig_sentence_variance (t : List Char) : Nat × Nat :=
  let ss := sentences t
  if 3 ≤ ss.length then
    let lens : List ℚ := ss.map (fun s => ((pySplitWs s).length : ℚ))
    let avg : ℚ := lens.sum / (lens.length : ℚ)
    let variance : ℚ := (lens.map (fun x => (x - avg) ^ 2)).sum / (lens.length : ℚ)
    if variance < 20 then (2, 0) else (0, 1)
  else (0, 0)

/-- Signal 2 (lines 80-87): formal transition phrases. -/
def sig_formal (t : List Char) : Nat × Nat :=
  let lower := text_lower t
  let formal_count := (formal_transitions.filter (fun p => isSubstr p lower)).length
  if 2 ≤ formal_count then (2, 0) else (0, 0)

/-- Signal 3 (lines 90-98): repeated two-word sentence openers. -/
def sig_repetitive (t : List Char) : Nat × Nat :=
  let starts := (sentences t).filterMap (fun s =>
    match pySplitWs s with
    | w0 :: w1 :: _ => some (text_lower (w0 ++ [' '] ++ w1))
    | _ => none)
  if starts.any (fun s => 3 ≤ starts.count s) then (2, 0) else (0, 0)

/-- Signal 4 (lines 101-104): hedging words surrounded by spaces. -/
def sig_hedging (t : List Char) : Nat × Nat :=
  let lower := text_lower t
  let hedging_count := (hedging_words.map (fun w => pyCount ([' '] ++ w ++ [' ']) lower)).sum
  if 3 ≤ hedging_count then (1, 0) else (0, 0)

/-- Signal 5 (lines 107-111): first-person markers. -/
def sig_pronouns (t : List Char) : Nat × Nat :=
  let lower := text_lower t
  let personal_pronouns :=
    pyCount " i ".data lower + pyCount " my ".data lower +
    pyCount " me ".data lower + pyCount ['i', apos, 'm'] lower
  if 2 ≤ personal_pronouns then (0, 2)
  else if personal_pronouns = 0 ∧ 200 < t.length then (1, 0)
  else (0, 0)

/-- Signal 6 (lines 113-119): contraction markers (case-sensitive, raw text). -/
def sig_contractions (t : List Char) : Nat × Nat :=
  let contraction_count := (contractions.map (fun c => pyCount c t)).sum
  if 2 ≤ contraction_count then (0, 2)
  else if contraction_count = 0 ∧ 150 < t.length then (1, 0)
  else (0, 0)

/-- Signal 7 (lines 122-124): exclamation points and question marks. -/
def sig_excitement (t : List Char) : Nat × Nat :=
  if 2 ≤ pyCount ['!'] t + pyCount ['?'] t then (0, 1) else (0, 0)

/-- Signal 8 (lines 127-128): list formatting. -/
def sig_lists (t : List Char) : Nat × Nat :=
  if 2 ≤ pyCount ['\n', '-'] t ∨ 2 ≤ pyCount ['\n', '*'] t ∨ 1 ≤ pyCount ['\n', '1', '.'] t
  then (1, 0) else (0, 0)

/-- Signal 9 (lines 131-135): the there/their/alot substring check. -/
def sig_grammar (t : List Char) : Nat × Nat :=
  let lower := text_lower t
  if isSubstr " alot ".data lower ∨ isSubstr " there ".data lower ∨ isSubstr " their ".data lower
  then (0, 1) else (0, 0)

/-- Signal 10 (lines 137-146): vocabulary diversity; skipped when there are
    no word tokens (the `total_words > 0` guard). -/
def sig_diversity (t : List Char) : Nat × Nat :=
  let ws := word_tokens (text_lower t)
  let total_words := ws.length
  if 0 < total_words then
    let unique_words := distinct_count ws []
    let diversity : ℚ := (unique_words : ℚ) / (total_words : ℚ)
    if 7/10 < diversity then (0, 1)
    else if diversity < 1/2 then (1, 0)
    else (0, 0)
  else (0, 0)

/-- The accumulated `(ai_indicators, human_indicators)` after the ten signal
    blocks; each block only adds to the counters and reads neither, so the
    sequential accumulation of the source equals this componentwise sum. -/
def analyze_text_tallies (t : List Char) : Nat × Nat :=
  ((sig_sentence_variance t).1 + (sig_formal t).1 + (sig_repetitive t).1 +
     (sig_hedging t).1 + (sig_pronouns t).1 + (sig_contractions t).1 +
     (sig_excitement t).1 + (sig_lists t).1 + (sig_grammar t).1 + (sig_diversity t).1,
   (sig_sentence_variance t).2 + (sig_formal t).2 + (sig_repetitive t).2 +
     (sig_hedging t).2 + (sig_pronouns t).2 + (sig_contractions t).2 +
     (sig_excitement t).2 + (sig_lists t).2 + (sig_grammar t).2 + (sig_diversity t).2)

/-- Lines 149-154: the pre-jitter `ai_probability` of the text scorer. -/
def text_ai_probability (t : List Char) : ℚ :=
  let ai := (analyze_text_tallies t).1
  let human := (analyze_text_tallies t).2
  if ai + human = 0 then 45/100
  else (ai : ℚ) / ((ai + human : Nat) : ℚ)

/-- Line 158: `max(0.0, min(1.0, x))`. -/
def clamp01 (x : ℚ) : ℚ := max 0 (min 1 x)

structure AnalysisResponse where
  status : String
  confidence : ℤ
deriving DecidableEq

structure HTTPError where
  status_code : Nat
  detail : String
deriving DecidableEq

/-- Lines 160-169 and 282-291: label and confidence from the post-jitter
    probability, with the clamp band `[lo, hi]` (60-90 for text, 65-88 for
    images). `int()` is floor here since the argument is nonnegative. -/
def respOf (p : ℚ) (lo hi : ℤ) : AnalysisResponse :=
  { status := if 1/2 < p then "ai-generated" else "real"
    confidence :=
      max lo (min hi (if 1/2 < p then Int.floor (p * 100) else Int.floor ((1 - p) * 100))) }

/-- `POST /analyze/text` (lines 47-169), with the jitter drawn by
    `random.uniform(-0.05, 0.05)` passed explicitly as `j`. -/
def analyze_text (t : List Char) (j : ℚ) : Except HTTPError AnalysisResponse :=
  if t.length < 50 then
    .error ⟨400, "Text must be at least 50 characters long for accurate analysis"⟩
  else
    .ok (respOf (clamp01 (text_ai_probability t + j)) 60 90)

/-- The decoded image as the scorer sees it (lines 192-204): dimensions, the
    byte length of the upload, `getextrema()` per-channel (min, max) pairs
    (`none` when the call raises), and the `getexif()` tag count (`none`
    when the call raises). -/
structure ImageData where
  width : Nat
  height : Nat
  file_size : Nat
  extrema : Option (List (Nat × Nat))
  exif_tags : Option Nat
deriving DecidableEq

/-- Lines 209-213, kept verbatim including the duplicated 1024x1024 entry. -/
def common_ai_dimensions : List (Nat × Nat) :=
  [(512, 512), (1024, 1024), (768, 768),
   (1024, 1024), (1792, 1024), (1024, 1792),
   (1024, 576), (576, 1024)]

/-- Line 225: the `perfect_ratios` list as exact rationals. -/
def perfect_aspects : List ℚ := [1, 3/2, 67/100, 177/100, 56/100, 191/100]

/-- Image signal 1 (lines 208-215): exact dimension match, also swapped. -/
def img_sig_dimensions (img : ImageData) : Nat × Nat :=
  if common_ai_dimensions.contains (img.width, img.height) ∨
     common_ai_dimensions.contains (img.height, img.width)
  then (3, 0) else (0, 0)

/-- Image signal 2 (lines 217-221): divisibility by 128 or 64. -/
def img_sig_divisible (img : ImageData) : Nat × Nat :=
  if (img.width % 128 = 0 ∧ img.height % 128 = 0) ∨
     (img.width % 64 = 0 ∧ img.height % 64 = 0)
  then (2, 0) else (0, 1)

/-- Image signal 3 (lines 223-227): aspect ratio near a fixed list. -/
def img_sig_aspect (img : ImageData) : Nat × Nat :=
  let a : ℚ := if 0 < img.height then (img.width : ℚ) / (img.height : ℚ) else 1
  if perfect_aspects.any (fun r => decide (|a - r| < 1/20)) then (1, 0) else (0, 0)

/-- Image signal 4 (lines 229-236): bytes per pixel in [2, 4]. -/
def img_sig_bpp (img : ImageData) : Nat × Nat :=
  let pixels := img.width * img.height
  if 0 < pixels then
    let bytes_per_pixel : ℚ := (img.file_size : ℚ) / (pixels : ℚ)
    if 2 ≤ bytes_per_pixel ∧ bytes_per_pixel ≤ 4 then (1, 0) else (0, 0)
  else (0, 0)

/-- Image signal 5 (lines 238-257): channel extrema; the whole block is in a
    `try` whose failure (`extrema = none`) is swallowed with no change.
    The source divides the sum of ranges by the literal 3. -/
def img_sig_color (img : ImageData) : Nat × Nat :=
  match img.extrema with
  | none => (0, 0)
  | some stat =>
    let ranges : List ℚ := stat.map (fun mm => (mm.2 : ℚ) - (mm.1 : ℚ))
    let avg_range : ℚ := ranges.sum / 3
    let contrast : Nat × Nat :=
      if 200 < avg_range then (2, 0)
      else if avg_range < 150 then (0, 1)
      else (0, 0)
    let extremes : Nat := if stat.any (fun mm => mm.1 == 0 || mm.2 == 255) then 1 else 0
    (contrast.1 + extremes, contrast.2)

/-- Image signal 6 (lines 259-269): EXIF tag count. `if exif and len(exif) > 5`
    tests truthiness (non-emptiness) and the count; a raising `getexif()` is
    `none` and lands in the bare `except: ai_score += 1`. -/
def img_sig_exif (img : ImageData) : Nat × Nat :=
  match img.exif_tags with
  | none => (1, 0)
  | some n => if 0 < n ∧ 5 < n then (0, 3) else (2, 0)

/-- The accumulated `(ai_score, human_score)` after the six signal blocks;
    as in the text scorer, each block only adds, so the sequential
    accumulation equals this componentwise sum. -/
def analyze_image_tallies (img : ImageData) : Nat × Nat :=
  ((img_sig_dimensions img).1 + (img_sig_divisible img).1 + (img_sig_aspect img).1 +
     (img_sig_bpp img).1 + (img_sig_color img).1 + (img_sig_exif img).1,
   (img_sig_dimensions img).2 + (img_sig_divisible img).2 + (img_sig_aspect img).2 +
     (img_sig_bpp img).2 + (img_sig_color img).2 + (img_sig_exif img).2)

/-- Lines 271-276: the pre-jitter `ai_probability` of the image scorer. -/
def image_ai_probability (img : ImageData) : ℚ :=
  let ai := (analyze_image_tallies img).1
  let human := (analyze_image_tallies img).2
  if ai + human = 0 then 1/2
  else (ai : ℚ) / ((ai + human : Nat) : ℚ)

/-- An `/analyze/image` request as the handler sees it: the declared
    content type (`none` when absent), the byte length of the upload, and
    the outcome of the decode/verify/reopen/convert sequence of lines
    192-198, whose error value is the `str(e)` of the raised exception. -/
structure ImageRequest where
  content_type : Option (List Char)
  size : Nat
  decode : Except String ImageData

/-- Line 178: `not file.content_type or not file.content_type.startswith("image/")`,
    negated (an absent or empty content type fails the prefix test). -/
def content_type_ok : Option (List Char) → Bool
  | none => false
  | some ct => "image/".data.isPrefixOf ct

/-- `str(e)` for a `starlette.HTTPException`: `f"{status_code}: {detail}"`. -/
def str_of_http (code : Nat) (detail : String) : String :=
  toString code ++ ": " ++ detail

/-- `POST /analyze/image` (lines 171-291). The size-limit `HTTPException`
    of line 189 is raised inside the `try` of lines 184-199, so it is
    caught by the `except Exception` of line 200 and rewrapped, exactly
    like a decode error, into `"Invalid image file: " + str(e)`. -/
def analyze_image (req : ImageRequest) (j : ℚ) : Except HTTPError AnalysisResponse :=
  if content_type_ok req.content_type then
    match (if 5 * 1024 * 1024 < req.size then
             Except.error (str_of_http 400 "File size exceeds 5MB limit")
           else req.decode) with
    | .error e => .error ⟨400, "Invalid image file: " ++ e⟩
    | .ok img => .ok (respOf (clamp01 (image_ai_probability img + j)) 65 88)
  else
    .error ⟨400, "Invalid file type. Please upload an image (JPG, PNG, WebP)"⟩

/- Spec-side definitions, written from the wording of spec.md §4.1/§4.2
   ("Combine", "Apply jitter", "Label", "Confidence"), to be compared with
   the code-side pipeline above. -/

/-- Spec §4.1 Combine: default 0.45 when no signal fired, else the ratio. -/
def spec_text_prob (ai human : Nat) : ℚ :=
  if ai + human = 0 then 45/100 else (ai : ℚ) / ((ai + human : Nat) : ℚ)

/-- Spec §4.2 Combine: default 0.5 when no signal fired, else the ratio. -/
def spec_image_prob (ai human : Nat) : ℚ :=
  if ai + human = 0 then 1/2 else (ai : ℚ) / ((ai + human : Nat) : ℚ)

/-- Spec §4.1 Apply jitter: add the sample, clamp to [0, 1]. -/
def spec_jitter_clamp (p j : ℚ) : ℚ := max 0 (min 1 (p + j))

/-- Spec §4.1 Label rule. -/
def spec_label (p : ℚ) : String :=
  if 1/2 < p then "ai-generated" else "real"

/-- Spec §4.1 Confidence rule with clamp band [lo, hi]. -/
def spec_confidence (p : ℚ) (lo hi : ℤ) : ℤ :=
  max lo (min hi (if 1/2 < p then Int.floor (p * 100) else Int.floor ((1 - p) * 100)))

/- Helper lemmas about the shared response construction. -/

lemma respOf_confidence_lb (p : ℚ) (lo hi : ℤ) : lo ≤ (respOf p lo hi).confidence := by
  unfold respOf
  exact le_max_left _ _

lemma respOf_confidence_ub (p : ℚ) (lo hi : ℤ) (h : lo ≤ hi) :
    (respOf p lo hi).confidence ≤ hi := by
  unfold respOf
  exact max_le h (min_le_left _ _)

lemma respOf_status_eq_ite (p : ℚ) (lo hi : ℤ) :
    (respOf p lo hi).status = if 1/2 < p then "ai-generated" else "real" := rfl

lemma respOf_status_ai (p : ℚ) (lo hi : ℤ) (h : 1/2 < p) :
    (respOf p lo hi).status = "ai-generated" := by
  rw [respOf_status_eq_ite, if_pos h]

lemma respOf_status_real (p : ℚ) (lo hi : ℤ) (h : p ≤ 1/2) :
    (respOf p lo hi).status = "real" := by
  rw [respOf_status_eq_ite, if_neg (not_lt.mpr h)]

lemma respOf_status_or (p : ℚ) (lo hi : ℤ) :
    (respOf p lo hi).status = "real" ∨ (respOf p lo hi).status = "ai-generated" := by
  by_cases h : (1/2 : ℚ) < p
  · exact Or.inr (respOf_status_ai p lo hi h)
  · exact Or.inl (respOf_status_real p lo hi (not_lt.mp h))

lemma clamp01_le_half (x : ℚ) (h : x ≤ 1/2) : clamp01 x ≤ 1/2 := by
  unfold clamp01
  exact max_le (by norm_num) ((min_le_right 1 x).trans h)

lemma clamp01_gt_half (x : ℚ) (h : 1/2 < x) : 1/2 < clamp01 x := by
  unfold clamp01
  exact (lt_min (by norm_num) h).trans_le (le_max_right _ _)

/-- C8: a text shorter than 50 characters is rejected with HTTP 400 and the
    exact message, producing no response; any text of length at least 50
    (including exactly 50) is scored and yields a response. -/
theorem text_length_gate (t : List Char) (j : ℚ) :
    (t.length < 50 →
      analyze_text t j =
        .error ⟨400, "Text must be at least 50 characters long for accurate analysis"⟩) ∧
    (50 ≤ t.length → ∃ r, analyze_text t j = .ok r) := by
  constructor
  · intro h
    unfold analyze_text
    rw [if_pos h]
  · intro h
    unfold analyze_text
    rw [if_neg (by omega)]
    exact ⟨_, rfl⟩

/-- Witness for C8 at the 5-character text and at a 64-character text. -/
theorem text_length_gate_witness :
    (analyze_text "short".data 0 =
      .error ⟨400, "Text must be at least 50 characters long for accurate analysis"⟩) ∧
    (∃ r, analyze_text "The quick brown fox jumps over the lazy dog near the river bank".data 0 = .ok r) :=
  ⟨(text_length_gate "short".data 0).1 (by decide),
   (text_length_gate "The quick brown fox jumps over the lazy dog near the river bank".data 0).2 (by decide)⟩

/-- C2: for any text of length at least 50 and any jitter in [-0.05, 0.05],
    the text scorer returns a response whose confidence lies in [60, 90]
    and whose status is "real" or "ai-generated". -/
theorem analyze_text_response_bounds (t : List Char) (j : ℚ) (h50 : 50 ≤ t.length)
    (hj₁ : -(1/20) ≤ j) (hj₂ : j ≤ 1/20) :
    ∃ r, analyze_text t j = .ok r ∧ 60 ≤ r.confidence ∧ r.confidence ≤ 90 ∧
      (r.status = "real" ∨ r.status = "ai-generated") := by
  unfold analyze_text
  rw [if_neg (by omega)]
  exact ⟨_, rfl, respOf_confidence_lb _ _ _, respOf_confidence_ub _ _ _ (by norm_num),
    respOf_status_or _ _ _⟩

/-- Witness for C2 at a concrete 64-character text and jitter 0.05. -/
theorem analyze_text_response_bounds_witness :
    ∃ r, analyze_text "The quick brown fox jumps over the lazy dog near the river bank".data (1/20) = .ok r ∧
      60 ≤ r.confidence ∧ r.confidence ≤ 90 ∧
      (r.status = "real" ∨ r.status = "ai-generated") :=
  analyze_text_response_bounds
    "The quick brown fox jumps over the lazy dog near the river bank".data (1/20)
    (by decide) (by norm_num) (by norm_num)

/-- C10: when the lowercased text has no word token at all, the diversity
    signal contributes nothing to either tally (its `total_words > 0` guard
    skips the division), and a text of length at least 50 is still scored. -/
theorem empty_tokens_diversity_skipped (t : List Char) (j : ℚ)
    (h : word_tokens (text_lower t) = []) :
    sig_diversity t = (0, 0) ∧ (50 ≤ t.length → ∃ r, analyze_text t j = .ok r) := by
  constructor
  · simp [sig_diversity, h]
  · intro h50
    unfold analyze_text
    rw [if_neg (by omega)]
    exact ⟨_, rfl⟩

/-- Witness for C10 at the text of 50 consecutive periods. -/
theorem empty_tokens_diversity_skipped_witness :
    sig_diversity (List.replicate 50 '.') = (0, 0) ∧
    (50 ≤ (List.replicate 50 '.').length →
      ∃ r, analyze_text (List.replicate 50 '.') 0 = .ok r) :=
  empty_tokens_diversity_skipped (List.replicate 50 '.') 0 (by decide)

lemma img_sig_divisible_total (img : ImageData) :
    1 ≤ (img_sig_divisible img).1 + (img_sig_divisible img).2 := by
  unfold img_sig_divisible
  split <;> simp

lemma img_sig_exif_total (img : ImageData) :
    1 ≤ (img_sig_exif img).1 + (img_sig_exif img).2 := by
  unfold img_sig_exif
  split
  · simp
  · split <;> simp

/-- C9: every image reaching the scoring phase has `ai_score + human_score ≥ 2`
    (signal 2 always contributes and so does signal 6), so the
    `total_score == 0` default of 0.5 is unreachable and the probability is
    always the tally ratio. -/
theorem image_tallies_total_ge_two (img : ImageData) :
    2 ≤ (analyze_image_tallies img).1 + (analyze_image_tallies img).2 ∧
    image_ai_probability img =
      ((analyze_image_tallies img).1 : ℚ) /
        (((analyze_image_tallies img).1 + (analyze_image_tallies img).2 : Nat) : ℚ) := by
  have h2 := img_sig_divisible_total img
  have h6 := img_sig_exif_total img
  have htot : 2 ≤ (analyze_image_tallies img).1 + (analyze_image_tallies img).2 := by
    simp only [analyze_image_tallies]
    omega
  refine ⟨htot, ?_⟩
  unfold image_ai_probability
  rw [if_neg (by omega)]

/-- C5: with the jitter stubbed to 0 the scorers are pure functions of their
    input, and both the pre-jitter probability and the final response are
    exactly the ones the documented tally formulas of the spec prescribe. -/
theorem scorers_reproducible (t : List Char) (img : ImageData) (h50 : 50 ≤ t.length) :
    text_ai_probability t =
      spec_text_prob (analyze_text_tallies t).1 (analyze_text_tallies t).2 ∧
    image_ai_probability img =
      spec_image_prob (analyze_image_tallies img).1 (analyze_image_tallies img).2 ∧
    analyze_text t 0 =
      .ok ⟨spec_label (spec_jitter_clamp (text_ai_probability t) 0),
           spec_confidence (spec_jitter_clamp (text_ai_probability t) 0) 60 90⟩ ∧
    respOf (clamp01 (image_ai_probability img + 0)) 65 88 =
      ⟨spec_label (spec_jitter_clamp (image_ai_probability img) 0),
       spec_confidence (spec_jitter_clamp (image_ai_probability img) 0) 65 88⟩ := by
  refine ⟨rfl, rfl, ?_, rfl⟩
  unfold analyze_text
  rw [if_neg (by omega)]
  rfl

/-- Witness for C5 at a concrete 64-character text and a concrete image. -/
theorem scorers_reproducible_witness :
    text_ai_probability "The quick brown fox jumps over the lazy dog near the river bank".data =
      spec_text_prob
        (analyze_text_tallies "The quick brown fox jumps over the lazy dog near the river bank".data).1
        (analyze_text_tallies "The quick brown fox jumps over the lazy dog near the river bank".data).2 ∧
    image_ai_probability ⟨600, 400, 1000, none, none⟩ =
      spec_image_prob (analyze_image_tallies ⟨600, 400, 1000, none, none⟩).1
        (analyze_image_tallies ⟨600, 400, 1000, none, none⟩).2 ∧
    analyze_text "The quick brown fox jumps over the lazy dog near the river bank".data 0 =
      .ok ⟨spec_label (spec_jitter_clamp (text_ai_probability "The quick brown fox jumps over the lazy dog near the river bank".data) 0),
           spec_confidence (spec_jitter_clamp (text_ai_probability "The quick brown fox jumps over the lazy dog near the river bank".data) 0) 60 90⟩ ∧
    respOf (clamp01 (image_ai_probability ⟨600, 400, 1000, none, none⟩ + 0)) 65 88 =
      ⟨spec_label (spec_jitter_clamp (image_ai_probability ⟨600, 400, 1000, none, none⟩) 0),
       spec_confidence (spec_jitter_clamp (image_ai_probability ⟨600, 400, 1000, none, none⟩) 0) 65 88⟩ :=
  scorers_reproducible
    "The quick brown fox jumps over the lazy dog near the river bank".data
    ⟨600, 400, 1000, none, none⟩ (by decide)

/-- C4: a text of length at least 50 on which no signal fires has pre-jitter
    probability exactly 0.45, and every jitter in [-0.05, 0.05] leaves the
    post-jitter probability at most 0.5, so the label is "real". -/
theorem zero_tallies_default_real (t : List Char) (j : ℚ)
    (h0 : analyze_text_tallies t = (0, 0)) (h50 : 50 ≤ t.length)
    (hj₁ : -(1/20) ≤ j) (hj₂ : j ≤ 1/20) :
    text_ai_probability t = 45/100 ∧
    ∃ r, analyze_text t j = .ok r ∧ r.status = "real" := by
  have hp : text_ai_probability t = 45/100 := by
    unfold text_ai_probability
    rw [h0]
    rfl
  refine ⟨hp, ?_⟩
  unfold analyze_text
  rw [if_neg (by omega)]
  refine ⟨_, rfl, respOf_status_real _ _ _ ?_⟩
  apply clamp01_le_half
  rw [hp]
  linarith

/-- A 68-character text with two sentences worth of filler words chosen so
    that none of the ten signals fires (diversity 8/12 sits in [0.5, 0.7]). -/
def neutral_text : List Char :=
  "alpha beta gamma delta alpha beta gamma delta epsilon zeta eta theta".data

lemma neutral_text_tallies : analyze_text_tallies neutral_text = (0, 0) := by
  have h1 : (word_tokens (text_lower neutral_text)).length = 12 := by decide
  have h2 : distinct_count (word_tokens (text_lower neutral_text)) [] = 8 := by decide
  have hd : sig_diversity neutral_text = (0, 0) := by
    simp only [sig_diversity, h1, h2]
    norm_num
  have h3 : sig_sentence_variance neutral_text = (0, 0) := by decide
  have h4 : sig_formal neutral_text = (0, 0) := by decide
  have h5 : sig_repetitive neutral_text = (0, 0) := by decide
  have h6 : sig_hedging neutral_text = (0, 0) := by decide
  have h7 : sig_pronouns neutral_text = (0, 0) := by decide
  have h8 : sig_contractions neutral_text = (0, 0) := by decide
  have h9 : sig_excitement neutral_text = (0, 0) := by decide
  have h10 : sig_lists neutral_text = (0, 0) := by decide
  have h11 : sig_grammar neutral_text = (0, 0) := by decide
  simp [analyze_text_tallies, hd, h3, h4, h5, h6, h7, h8, h9, h10, h11]

/-- Witness for C4 at the neutral 68-character text and jitter exactly 0.05. -/
theorem zero_tallies_default_real_witness :
    text_ai_probability neutral_text = 45/100 ∧
    ∃ r, analyze_text neutral_text (1/20) = .ok r ∧ r.status = "real" :=
  zero_tallies_default_real neutral_text (1/20) neutral_text_tallies
    (by decide) (by norm_num) (by norm_num)

/-- The text of 50 consecutive space-separated "test" tokens (249 chars). -/
def fifty_test_text : List Char :=
  List.intercalate [' '] (List.replicate 50 "test".data)

lemma fifty_test_sig_diversity : sig_diversity fifty_test_text = (1, 0) := by
  have h1 : (word_tokens (text_lower fifty_test_text)).length = 50 := by decide
  have h2 : distinct_count (word_tokens (text_lower fifty_test_text)) [] = 1 := by decide
  simp only [sig_diversity, h1, h2]
  norm_num

lemma fifty_test_text_tallies : analyze_text_tallies fifty_test_text = (3, 0) := by
  have hd := fifty_test_sig_diversity
  have h3 : sig_sentence_variance fifty_test_text = (0, 0) := by decide
  have h4 : sig_formal fifty_test_text = (0, 0) := by decide
  have h5 : sig_repetitive fifty_test_text = (0, 0) := by decide
  have h6 : sig_hedging fifty_test_text = (0, 0) := by decide
  have h7 : sig_pronouns fifty_test_text = (1, 0) := by decide
  have h8 : sig_contractions fifty_test_text = (1, 0) := by decide
  have h9 : sig_excitement fifty_test_text = (0, 0) := by decide
  have h10 : sig_lists fifty_test_text = (0, 0) := by decide
  have h11 : sig_grammar fifty_test_text = (0, 0) := by decide
  simp [analyze_text_tallies, hd, h3, h4, h5, h6, h7, h8, h9, h10, h11]

/-- C6: on the 50-fold "test" text the contraction signal (no contractions,
    length over 150) and the diversity signal (1/50 below 0.5) both feed the
    ai tally, the human tally stays 0, and every jitter in [-0.05, 0.05]
    yields the label "ai-generated" with confidence in [60, 90]. -/
theorem fifty_test_text_ai (j : ℚ) (hj₁ : -(1/20) ≤ j) (hj₂ : j ≤ 1/20) :
    1 ≤ (sig_contractions fifty_test_text).1 ∧
    1 ≤ (sig_diversity fifty_test_text).1 ∧
    (analyze_text_tallies fifty_test_text).2 = 0 ∧
    ∃ r, analyze_text fifty_test_text j = .ok r ∧ r.status = "ai-generated" ∧
      60 ≤ r.confidence ∧ r.confidence ≤ 90 := by
  have htal := fifty_test_text_tallies
  have hp : text_ai_probability fifty_test_text = 1 := by
    unfold text_ai_probability
    rw [htal]
    norm_num
  refine ⟨by decide, by rw [fifty_test_sig_diversity], by rw [htal], ?_⟩
  unfold analyze_text
  rw [if_neg (by decide)]
  refine ⟨_, rfl, respOf_status_ai _ _ _ ?_, respOf_confidence_lb _ _ _,
    respOf_confidence_ub _ _ _ (by norm_num)⟩
  apply clamp01_gt_half
  rw [hp]
  linarith

/-- Witness for C6 at jitter 0. -/
theorem fifty_test_text_ai_witness :
    1 ≤ (sig_contractions fifty_test_text).1 ∧
    1 ≤ (sig_diversity fifty_test_text).1 ∧
    (analyze_text_tallies fifty_test_text).2 = 0 ∧
    ∃ r, analyze_text fifty_test_text 0 = .ok r ∧ r.status = "ai-generated" ∧
      60 ≤ r.confidence ∧ r.confidence ≤ 90 :=
  fifty_test_text_ai 0 (by norm_num) (by norm_num)

/-- C3: any request that passes the content-type, size and decode checks is
    scored, and for any jitter in [-0.05, 0.05] the response confidence lies
    in [65, 88]. -/
theorem analyze_image_response_bounds (ct : List Char) (sz : Nat) (img : ImageData) (j : ℚ)
    (hct : content_type_ok (some ct) = true) (hsz : sz ≤ 5 * 1024 * 1024)
    (hj₁ : -(1/20) ≤ j) (hj₂ : j ≤ 1/20) :
    ∃ r, analyze_image ⟨some ct, sz, .ok img⟩ j = .ok r ∧
      65 ≤ r.confidence ∧ r.confidence ≤ 88 := by
  have hsz2 : ¬ 5 * 1024 * 1024 < (ImageRequest.mk (some ct) sz (.ok img)).size := by
    show ¬ 5 * 1024 * 1024 < sz
    omega
  have h1 : analyze_image ⟨some ct, sz, .ok img⟩ j =
      .ok (respOf (clamp01 (image_ai_probability img + j)) 65 88) := by
    unfold analyze_image
    rw [if_pos hct, if_neg hsz2]
  exact ⟨_, h1, respOf_confidence_lb _ _ _, respOf_confidence_ub _ _ _ (by norm_num)⟩

/-- Witness for C3 at a concrete PNG-typed 1000-byte request and jitter 0.05. -/
theorem analyze_image_response_bounds_witness :
    ∃ r, analyze_image ⟨some "image/png".data, 1000,
        .ok ⟨600, 400, 1000, none, none⟩⟩ (1/20) = .ok r ∧
      65 ≤ r.confidence ∧ r.confidence ≤ 88 :=
  analyze_image_response_bounds "image/png".data 1000
    ⟨600, 400, 1000, none, none⟩ (1/20)
    (by decide) (by norm_num) (by norm_num) (by norm_num)

/-- The uniform mid-gray 512x512 image with no metadata tags of spec §8:
    all three channel extrema are (128, 128) and the EXIF tag count is 0;
    the byte length of the upload is left as a parameter. -/
def gray_square (fs : Nat) : ImageData :=
  ⟨512, 512, fs, some [(128, 128), (128, 128), (128, 128)], some 0⟩

/-- C7: on the gray 512x512 square the dimension (+3), divisibility (+2),
    aspect ratio (+1) and missing-metadata (+2) signals feed the ai tally,
    bytes-per-pixel adds one more when it falls in [2, 4], the low-range
    color check adds 1 human, and every jitter in [-0.05, 0.05] keeps the
    label "ai-generated". -/
theorem gray_square_label_ai (fs : Nat) (j : ℚ) (hj₁ : -(1/20) ≤ j) (hj₂ : j ≤ 1/20) :
    analyze_image_tallies (gray_square fs) =
      (if 2 ≤ (fs : ℚ) / ((512 * 512 : Nat) : ℚ) ∧ (fs : ℚ) / ((512 * 512 : Nat) : ℚ) ≤ 4
       then (9, 1) else (8, 1)) ∧
    (respOf (clamp01 (image_ai_probability (gray_square fs) + j)) 65 88).status =
      "ai-generated" := by
  have h1 : img_sig_dimensions (gray_square fs) = (3, 0) := rfl
  have h2 : img_sig_divisible (gray_square fs) = (2, 0) := by
    unfold img_sig_divisible gray_square
    norm_num
  have h6 : img_sig_exif (gray_square fs) = (2, 0) := rfl
  have h3 : img_sig_aspect (gray_square fs) = (1, 0) := by
    norm_num [img_sig_aspect, gray_square, perfect_aspects, List.any_cons, List.any_nil,
      abs_sub_lt_iff]
  have h5 : img_sig_color (gray_square fs) = (0, 1) := by
    simp only [img_sig_color, gray_square, List.map_cons, List.map_nil, List.sum_cons,
      List.sum_nil, List.any_cons, List.any_nil]
    norm_num
  have h4 : img_sig_bpp (gray_square fs) =
      (if 2 ≤ (fs : ℚ) / ((512 * 512 : Nat) : ℚ) ∧ (fs : ℚ) / ((512 * 512 : Nat) : ℚ) ≤ 4
       then (1, 0) else (0, 0)) := by
    simp only [img_sig_bpp, gray_square]
    rw [if_pos (by norm_num)]
  by_cases hc : 2 ≤ (fs : ℚ) / ((512 * 512 : Nat) : ℚ) ∧ (fs : ℚ) / ((512 * 512 : Nat) : ℚ) ≤ 4
  · have htal : analyze_image_tallies (gray_square fs) = (9, 1) := by
      simp only [analyze_image_tallies, h1, h2, h3, h4, h5, h6, if_pos hc]
    have hp : image_ai_probability (gray_square fs) = 9/10 := by
      unfold image_ai_probability
      rw [htal]
      norm_num
    refine ⟨by rw [htal, if_pos hc], respOf_status_ai _ _ _ ?_⟩
    apply clamp01_gt_half
    rw [hp]
    linarith
  · have htal : analyze_image_tallies (gray_square fs) = (8, 1) := by
      simp only [analyze_image_tallies, h1, h2, h3, h4, h5, h6, if_neg hc]
    have hp : image_ai_probability (gray_square fs) = 8/9 := by
      unfold image_ai_probability
      rw [htal]
      norm_num
    refine ⟨by rw [htal, if_neg hc], respOf_status_ai _ _ _ ?_⟩
    apply clamp01_gt_half
    rw [hp]
    linarith

/-- Witness for C7 at byte length 1000 (bytes-per-pixel below 2) and jitter -0.05. -/
theorem gray_square_label_ai_witness :
    analyze_image_tallies (gray_square 1000) =
      (if 2 ≤ ((1000 : Nat) : ℚ) / ((512 * 512 : Nat) : ℚ) ∧
          ((1000 : Nat) : ℚ) / ((512 * 512 : Nat) : ℚ) ≤ 4
       then (9, 1) else (8, 1)) ∧
    (respOf (clamp01 (image_ai_probability (gray_square 1000) + -(1/20))) 65 88).status =
      "ai-generated" :=
  gray_square_label_ai 1000 (-(1/20)) (by norm_num) (by norm_num)

/-- An image/png upload one byte over the 5 MiB limit; its decode outcome is
    irrelevant because the size check fires first. -/
def oversize_request : ImageRequest :=
  ⟨some "image/png".data, 5 * 1024 * 1024 + 1, .ok ⟨512, 512, 5 * 1024 * 1024 + 1, none, none⟩⟩

/-- C1: an upload over 5 MiB is rejected with status 400 and no score, but
    the `HTTPException` raised by the size check is caught by the handler's
    own `except Exception` clause, so the detail delivered to the client is
    the wrapped "Invalid image file: 400: File size exceeds 5MB limit" and
    not the bare "File size exceeds 5MB limit" the spec states. -/
theorem oversize_image_wrapped_detail :
    analyze_image oversize_request 0 =
      .error ⟨400, "Invalid image file: 400: File size exceeds 5MB limit"⟩ ∧
    analyze_image oversize_request 0 ≠ .error ⟨400, "File size exceeds 5MB limit"⟩ := by
  have h : analyze_image oversize_request 0 =
      .error ⟨400, "Invalid image file: 400: File size exceeds 5MB limit"⟩ := rfl
  refine ⟨h, ?_⟩
  rw [h]
  intro hbad
  have := congrArg (fun e => match e with | .error err => err.detail | .ok _ => "") hbad
  simp at this
